import Mathlib

set_option linter.unusedVariables false

/-!
Verification of the ext4 size-estimation engine of the opengcs repository
(`service/gcsutils/fs/ext4.go`).

The Go code accumulates a total byte size and an inode count for a stream of
filesystem entries, then finalizes (scale by 1.5, align to 64 blocks) and
hands the result to `mkfs.ext4`.

Embedding conventions:
- Go `uint64` fields are embedded as `Nat`.  The accumulator only ever adds
  and the quantities involved (image sizes) are far below 2^64, so wraparound
  is not reachable on the inputs the program handles; where a claim depends on
  exact machine arithmetic the theorem says so in its statement.
- Every Go method returns an `error`; all sizing methods return `nil`
  unconditionally, which we embed as `Except String Ext4Fs` with an `.ok`
  result, keeping the error channel visible in the types.
- `logrus` logging calls have no effect on the accumulator state and are not
  modelled.
- Go `len(s)` on a `string` is its byte length, embedded as
  `String.utf8ByteSize`.
- `FinalizeSizeContext` computes `uint64(float64(x) * 1.50)`.  The constant
  1.5 is exactly representable in float64; for every `x < 2^52` the product
  `1.5 * x` (an integer or a half-integer below 2^53) is also exactly
  representable, and Go's float-to-uint64 conversion truncates toward zero.
  Hence on that whole range the expression equals `3 * x / 2` in natural
  number (floor) division, which is how it is embedded here.
- `MakeFileSystem` shells out to `mkfs.ext4`.  The exit status of that
  external process is a parameter of the embedding, and the `time.Sleep`
  performed on its failure path is reflected in the result as the number of
  hours slept before the function returns.
-/

/-- State of the ext4 size model (struct `Ext4Fs` in ext4.go):
configured block size and inode size, and the running totals. -/
structure Ext4Fs where
  BlockSize : Nat
  InodeSize : Nat
  totalSize : Nat
  numInodes : Nat
deriving Repr, DecidableEq

/-- Size result returned to the caller (struct `FilesystemSizeInfo`). -/
structure FilesystemSizeInfo where
  NumInodes : Nat
  TotalSize : Nat
deriving Repr, DecidableEq

/-- `maxU64` from ext4.go. -/
def maxU64 (x y : Nat) : Nat :=
  if x > y then x else y

/-- `alignN` from ext4.go: round `n` up to a multiple of `alignto`,
returning `n` unchanged when it is already a multiple. -/
def alignN (n alignto : Nat) : Nat :=
  if n % alignto = 0 then n else n + alignto - n % alignto

/-- `addInode` from ext4.go: one more inode, `InodeSize` more bytes. -/
def addInode (e : Ext4Fs) : Ext4Fs :=
  { e with numInodes := e.numInodes + 1, totalSize := e.totalSize + e.InodeSize }

/-- `InitSizeContext` from ext4.go: 11 reserved inodes, and the boot
sector + super block region (2048 bytes) plus the reserved inodes, but at
least one block.  The Go method performs no validation and returns `nil`. -/
def InitSizeContext (e : Ext4Fs) : Except String Ext4Fs :=
  let e := { e with numInodes := 11 }
  let e := { e with totalSize := maxU64 (2048 + e.numInodes * e.InodeSize) e.BlockSize }
  Except.ok e

/-- `CalcRegFileSize` from ext4.go: one inode, one block for the directory
entry, and the file size rounded up to whole blocks. -/
def CalcRegFileSize (e : Ext4Fs) (fileName : String) (fileSize : Nat) :
    Except String Ext4Fs :=
  let e := addInode e
  let e := { e with totalSize := e.totalSize + e.BlockSize }
  let e := { e with totalSize := e.totalSize + alignN fileSize e.BlockSize }
  Except.ok e

/-- `CalcDirSize` from ext4.go: one inode and three blocks. -/
def CalcDirSize (e : Ext4Fs) (dirName : String) : Except String Ext4Fs :=
  let e := addInode e
  let e := { e with totalSize := e.totalSize + 3 * e.BlockSize }
  Except.ok e

/-- `CalcSymlinkSize` from ext4.go: one inode; targets longer than 60 bytes
are not inline and additionally cost the target length rounded up to whole
blocks (Go `len(dstName)` is the byte length of the string). -/
def CalcSymlinkSize (e : Ext4Fs) (srcName dstName : String) :
    Except String Ext4Fs :=
  let e := addInode e
  let e :=
    if dstName.utf8ByteSize > 60 then
      { e with totalSize := e.totalSize + alignN dstName.utf8ByteSize e.BlockSize }
    else e
  Except.ok e

/-- `CalcHardlinkSize` from ext4.go: one block for the directory entry and
no new inode. -/
def CalcHardlinkSize (e : Ext4Fs) (srcName dstName : String) :
    Except String Ext4Fs :=
  let e := { e with totalSize := e.totalSize + e.BlockSize }
  Except.ok e

/-- `CalcCharDeviceSize` from ext4.go: one inode only. -/
def CalcCharDeviceSize (e : Ext4Fs) (devName : String) (major minor : Nat) :
    Except String Ext4Fs :=
  Except.ok (addInode e)

/-- `CalcBlockDeviceSize` from ext4.go: one inode only. -/
def CalcBlockDeviceSize (e : Ext4Fs) (devName : String) (major minor : Nat) :
    Except String Ext4Fs :=
  Except.ok (addInode e)

/-- `CalcFIFOPipeSize` from ext4.go: one inode only. -/
def CalcFIFOPipeSize (e : Ext4Fs) (pipeName : String) : Except String Ext4Fs :=
  Except.ok (addInode e)

/-- `CalcSocketSize` from ext4.go: one inode only. -/
def CalcSocketSize (e : Ext4Fs) (sockName : String) : Except String Ext4Fs :=
  Except.ok (addInode e)

/-- `CalcAddExAttrSize` from ext4.go: extended attributes live in the inode
and change nothing. -/
def CalcAddExAttrSize (e : Ext4Fs) (fileName attr : String) (data : List Nat)
    (flags : Int) : Except String Ext4Fs :=
  Except.ok e

/-- `FinalizeSizeContext` from ext4.go: scale the total size and the inode
count by 1.5 (Go computes `uint64(float64(x) * 1.50)`, which equals
`3 * x / 2` in floor division for all `x < 2^52`, see the header comment),
then align the total size to `64 * BlockSize` when it is not already a
multiple.  Go would panic on the `%` when `BlockSize = 0`; claims about this
function therefore assume a positive block size. -/
def FinalizeSizeContext (e : Ext4Fs) : Except String Ext4Fs :=
  let e := { e with totalSize := 3 * e.totalSize / 2 }
  let e := { e with numInodes := 3 * e.numInodes / 2 }
  let e :=
    if e.totalSize % (64 * e.BlockSize) ≠ 0 then
      { e with totalSize := alignN e.totalSize (64 * e.BlockSize) }
    else e
  Except.ok e

/-- `GetSizeInfo` from ext4.go. -/
def GetSizeInfo (e : Ext4Fs) : FilesystemSizeInfo :=
  { NumInodes := e.numInodes, TotalSize := e.totalSize }

/-- `CleanupSizeContext` from ext4.go: nothing to free. -/
def CleanupSizeContext (e : Ext4Fs) : Except String Unit :=
  Except.ok ()

/-- `MakeFileSystem` from ext4.go.  The function runs the external
`mkfs.ext4` process; its exit status is the parameter `mkfsResult`
(`.ok` for exit code 0, `.error` with a message otherwise).  On failure the
Go code executes `time.Sleep(100 * time.Hour)` before returning the error;
the first component of the result is the number of hours slept before the
call returns. -/
def MakeFileSystem (e : Ext4Fs) (mkfsResult : Except String Unit) :
    Nat × Except String Unit :=
  match mkfsResult with
  | Except.ok _ => (0, Except.ok ())
  | Except.error msg => (100, Except.error msg)

/-- One archive entry, as dispatched by the archive driver to the `Calc*`
operations: the eight entry kinds plus the extended-attribute declaration. -/
inductive Entry where
  | regFile (fileName : String) (fileSize : Nat)
  | directory (dirName : String)
  | symlink (srcName dstName : String)
  | hardlink (srcName dstName : String)
  | charDevice (devName : String) (major minor : Nat)
  | blockDevice (devName : String) (major minor : Nat)
  | fifoPipe (pipeName : String)
  | socket (sockName : String)
  | exAttr (fileName attr : String) (data : List Nat) (flags : Int)
deriving Repr, DecidableEq

/-- Dispatch of one entry to the matching `Calc*` operation. -/
def applyEntry (e : Ext4Fs) : Entry → Except String Ext4Fs
  | Entry.regFile n sz => CalcRegFileSize e n sz
  | Entry.directory n => CalcDirSize e n
  | Entry.symlink s t => CalcSymlinkSize e s t
  | Entry.hardlink s t => CalcHardlinkSize e s t
  | Entry.charDevice n maj mi => CalcCharDeviceSize e n maj mi
  | Entry.blockDevice n maj mi => CalcBlockDeviceSize e n maj mi
  | Entry.fifoPipe n => CalcFIFOPipeSize e n
  | Entry.socket n => CalcSocketSize e n
  | Entry.exAttr n a d f => CalcAddExAttrSize e n a d f

/-- A whole sequence of entries, applied left to right, aborting on the
first error (as the archive driver does). -/
def applyEntries (e : Ext4Fs) (ops : List Entry) : Except String Ext4Fs :=
  ops.foldlM applyEntry e

/-- Spec-side description of rounding up: the least multiple of `a` that is
`≥ n` (meaningful for `a > 0`). -/
def ceilAlign (n a : Nat) : Nat :=
  a * ((n + a - 1) / a)

/-- Configuration with both parameters zero, for exercising the (absent)
validation in `InitSizeContext`. -/
def zeroCfg : Ext4Fs :=
  { BlockSize := 0, InodeSize := 0, totalSize := 0, numInodes := 0 }

/-- An mkfs failure message, standing for a nonzero exit of the external
formatting tool. -/
def mkfsErr : String := "exit status 1"

/-- State reached by `InitSizeContext` with blockSize 4096, inodeSize 256:
totalSize = max(2048 + 11 * 256, 4096) = 4864, numInodes = 11. -/
def preC2 : Ext4Fs :=
  { BlockSize := 4096, InodeSize := 256, totalSize := 4864, numInodes := 11 }

/-- A concrete mid-accumulation state used to instantiate the alignment
invariant. -/
def preC1 : Ext4Fs :=
  { BlockSize := 4096, InodeSize := 256, totalSize := 5000, numInodes := 12 }

/-- Concrete state for the regular-file sizing example. -/
def regFileState : Ext4Fs :=
  { BlockSize := 4096, InodeSize := 256, totalSize := 0, numInodes := 0 }

/-- Concrete state for the symlink sizing example. -/
def symlinkState : Ext4Fs :=
  { BlockSize := 4096, InodeSize := 256, totalSize := 10000, numInodes := 20 }

/-- Concrete state for the monotonicity example. -/
def seqState : Ext4Fs :=
  { BlockSize := 4096, InodeSize := 256, totalSize := 4864, numInodes := 11 }

/-- Concrete state for the argument-independence example. -/
def ignoreArgsState : Ext4Fs :=
  { BlockSize := 4096, InodeSize := 256, totalSize := 100, numInodes := 5 }

def fileNameW : String := "f"

def srcW : String := "s"

/-- A 60-byte symlink target (inline boundary). -/
def target60 : String := String.mk (List.replicate 60 'a')

/-- A 61-byte symlink target (first non-inline length). -/
def target61 : String := String.mk (List.replicate 61 'b')

def hlSrc : String := "x"

def hlDst : String := "y"

/-- The entry sequence for the monotonicity example: one hardlink. -/
def opsW : List Entry := [Entry.hardlink hlSrc hlDst]

def strA : String := "ab"

def strB : String := "cd"

/-- `maxU64` is `Nat.max`. -/
theorem maxU64_eq_max (x y : Nat) : maxU64 x y = max x y := by
  unfold maxU64
  split <;> omega

/-- For a positive alignment, `alignN` is exactly the least multiple of `a`
that is `≥ n`. -/
theorem alignN_eq_ceilAlign (n a : Nat) (ha : 0 < a) :
    alignN n a = ceilAlign n a := by
  rcases Nat.eq_zero_or_pos (n % a) with h | h
  · obtain ⟨q, hq⟩ := Nat.dvd_of_mod_eq_zero h
    subst hq
    have h1 : a * q + a - 1 = a * q + (a - 1) := by omega
    rw [alignN, ceilAlign, if_pos h, h1, Nat.mul_add_div ha,
      Nat.div_eq_of_lt (by omega), Nat.add_zero]
  · have hne : n % a ≠ 0 := Nat.pos_iff_ne_zero.mp h
    have hd := Nat.div_add_mod n a
    have hrlt : n % a < a := Nat.mod_lt _ ha
    rw [alignN, ceilAlign, if_neg hne]
    set q := n / a with hq
    set r := n % a with hr
    have hsucc : a * (q + 1) = a * q + a := by ring
    have h1 : n + a - 1 = a * (q + 1) + (r - 1) := by omega
    rw [h1, Nat.mul_add_div ha, Nat.div_eq_of_lt (by omega), Nat.add_zero]
    omega

/-- For a positive alignment, the result of `alignN` is a multiple of the
alignment. -/
theorem alignN_mod (n a : Nat) (ha : 0 < a) : alignN n a % a = 0 := by
  rw [alignN_eq_ceilAlign n a ha, ceilAlign]
  exact Nat.mul_mod_right a _

/-- C3: immediately after `InitSizeContext` the inode count is 11 and the
total size is max(2048 + 11 * inodeSize, blockSize), for every block size and
inode size (the running totals held before the call are overwritten). -/
theorem initSizeContext_reserved_baseline (e : Ext4Fs) :
    InitSizeContext e =
      Except.ok { e with
        numInodes := 11,
        totalSize := max (2048 + 11 * e.InodeSize) e.BlockSize } := by
  simp [InitSizeContext, maxU64_eq_max]

/-- C4 counterexample: with blockSize = 0 and inodeSize = 0 — values the
claim says must be rejected — `InitSizeContext` succeeds (the Go method
unconditionally returns nil). -/
theorem initSizeContext_accepts_zero_cx :
    (InitSizeContext zeroCfg).isOk = true := rfl

/-- C4 amended: `InitSizeContext` performs no validation at all and succeeds
for every configuration, including zero or unsupported block and inode
sizes. -/
theorem initSizeContext_always_ok (e : Ext4Fs) :
    (InitSizeContext e).isOk = true := rfl

/-- C5: when the external `mkfs.ext4` exits nonzero, `MakeFileSystem` does
propagate the error, but only after sleeping 100 hours
(`time.Sleep(100 * time.Hour)`), contradicting the required synchronous,
non-hanging failure path. -/
theorem makeFileSystem_failure_sleeps :
    MakeFileSystem preC1 (Except.error mkfsErr) =
      (100, Except.error mkfsErr) := rfl

/-- C8: adding a hardlink adds exactly one block to the total size and
changes nothing else — in particular the inode count, block size and inode
size are untouched — for every state. -/
theorem calcHardlinkSize_frame (e : Ext4Fs) (srcName dstName : String) :
    CalcHardlinkSize e srcName dstName =
      Except.ok { e with totalSize := e.totalSize + e.BlockSize } := rfl

/-- C1: after `FinalizeSizeContext`, the total size reported by
`GetSizeInfo` is an exact multiple of 64 times the block size.  The state
`e` is arbitrary, so this holds after any sequence of prior `add*` calls;
the block size must be positive (Go would panic on the modulus
otherwise). -/
theorem finalize_totalSize_aligned (e e' : Ext4Fs) (hB : 0 < e.BlockSize)
    (h : FinalizeSizeContext e = Except.ok e') :
    (GetSizeInfo e').TotalSize % (64 * e.BlockSize) = 0 := by
  have ha : 0 < 64 * e.BlockSize := by positivity
  simp only [FinalizeSizeContext, Except.ok.injEq] at h
  by_cases hc : (3 * e.totalSize / 2) % (64 * e.BlockSize) = 0
  · simp only [hc, ne_eq, not_true_eq_false, if_false] at h
    subst h
    simpa [GetSizeInfo] using hc
  · simp only [hc, ne_eq, not_false_eq_true, if_true] at h
    subst h
    simpa [GetSizeInfo] using alignN_mod (3 * e.totalSize / 2) (64 * e.BlockSize) ha

/-- C1 witness: a concrete run of the alignment invariant. -/
theorem finalize_totalSize_aligned_witness :
    (GetSizeInfo
        ({ BlockSize := 4096, InodeSize := 256, totalSize := 262144,
           numInodes := 18 } : Ext4Fs)).TotalSize % (64 * preC1.BlockSize) = 0 :=
  finalize_totalSize_aligned preC1
    { BlockSize := 4096, InodeSize := 256, totalSize := 262144, numInodes := 18 }
    (by decide) rfl

/-- C2 counterexample: from the state reached by `InitSizeContext` with
blockSize 4096 and inodeSize 256 (totalSize 4864, numInodes 11),
`FinalizeSizeContext` produces numInodes = 16, but an exact multiplication
of the inode count by 1.5 would require 2 * numInodes = 3 * 11 = 33, and
2 * 16 = 32 ≠ 33: the code truncates, it does not scale exactly. -/
theorem finalize_not_exact_scale_cx :
    FinalizeSizeContext preC2 =
        Except.ok { BlockSize := 4096, InodeSize := 256, totalSize := 262144,
                    numInodes := 16 } ∧
      2 * 16 ≠ 3 * 11 :=
  ⟨rfl, by decide⟩

/-- C2 amended: `FinalizeSizeContext` scales the total size and inode count
by 1.5 with the result truncated to an integer (floor, matching Go's
float-to-uint64 conversion), and only afterwards rounds the total size up
to the least multiple of 64 times the block size (a value that is already a
multiple is kept).  Block and inode size are unchanged. -/
theorem finalize_floor_scale_then_align (e e' : Ext4Fs) (hB : 0 < e.BlockSize)
    (h : FinalizeSizeContext e = Except.ok e') :
    e' = { e with
      totalSize := ceilAlign (3 * e.totalSize / 2) (64 * e.BlockSize),
      numInodes := 3 * e.numInodes / 2 } := by
  have ha : 0 < 64 * e.BlockSize := by positivity
  simp only [FinalizeSizeContext, Except.ok.injEq] at h
  by_cases hc : (3 * e.totalSize / 2) % (64 * e.BlockSize) = 0
  · simp only [hc, ne_eq, not_true_eq_false, if_false] at h
    subst h
    have : ceilAlign (3 * e.totalSize / 2) (64 * e.BlockSize)
        = 3 * e.totalSize / 2 := by
      rw [← alignN_eq_ceilAlign _ _ ha, alignN, if_pos hc]
    simp [this]
  · simp only [hc, ne_eq, not_false_eq_true, if_true] at h
    subst h
    simp [← alignN_eq_ceilAlign _ _ ha]

/-- C2 witness: the amended finalization law at the concrete post-`begin`
state (blockSize 4096, inodeSize 256). -/
theorem finalize_floor_scale_then_align_witness :
    ({ BlockSize := 4096, InodeSize := 256, totalSize := 262144,
       numInodes := 16 } : Ext4Fs) =
      { preC2 with
        totalSize := ceilAlign (3 * preC2.totalSize / 2) (64 * preC2.BlockSize),
        numInodes := 3 * preC2.numInodes / 2 } :=
  finalize_floor_scale_then_align preC2
    { BlockSize := 4096, InodeSize := 256, totalSize := 262144, numInodes := 16 }
    (by decide) rfl

/-- C6: adding a regular file adds exactly one inode and
inodeSize + blockSize + (fileSize rounded up to whole blocks) bytes, for
every state with a positive block size and every file name and size. -/
theorem calcRegFileSize_delta (e : Ext4Fs) (fileName : String)
    (fileSize : Nat) (hB : 0 < e.BlockSize) :
    CalcRegFileSize e fileName fileSize =
      Except.ok { e with
        numInodes := e.numInodes + 1,
        totalSize := e.totalSize + e.InodeSize + e.BlockSize +
          ceilAlign fileSize e.BlockSize } := by
  simp [CalcRegFileSize, addInode, ← alignN_eq_ceilAlign _ _ hB]

/-- C6 witness: blockSize 4096, inodeSize 256, one 10000-byte regular file
adds 256 + 4096 + 12288 = 16640 bytes and one inode. -/
theorem calcRegFileSize_delta_witness :
    CalcRegFileSize regFileState fileNameW 10000 =
        Except.ok { regFileState with
          numInodes := regFileState.numInodes + 1,
          totalSize := regFileState.totalSize + regFileState.InodeSize +
            regFileState.BlockSize + ceilAlign 10000 regFileState.BlockSize } ∧
      regFileState.totalSize + regFileState.InodeSize + regFileState.BlockSize +
          ceilAlign 10000 regFileState.BlockSize = 16640 :=
  ⟨calcRegFileSize_delta regFileState fileNameW 10000 (by decide), by decide⟩

/-- C7: adding a symlink adds exactly one inode; a target of at most 60
bytes adds nothing beyond the inode, and a longer target additionally adds
its byte length rounded up to whole blocks — for every state with a
positive block size. -/
theorem calcSymlinkSize_delta (e : Ext4Fs) (srcName dstName : String)
    (hB : 0 < e.BlockSize) :
    CalcSymlinkSize e srcName dstName =
      Except.ok { e with
        numInodes := e.numInodes + 1,
        totalSize := e.totalSize + e.InodeSize +
          (if 60 < dstName.utf8ByteSize then
            ceilAlign dstName.utf8ByteSize e.BlockSize
          else 0) } := by
  by_cases h : 60 < dstName.utf8ByteSize <;>
    simp [CalcSymlinkSize, addInode, h, ← alignN_eq_ceilAlign _ _ hB,
      Nat.add_assoc]

/-- C7 witness: with blockSize 4096 a 60-byte target adds 0 bytes beyond
the inode (10000 + 256 = 10256) and a 61-byte target adds exactly one
block (10256 + 4096 = 14352). -/
theorem calcSymlinkSize_delta_witness :
    (CalcSymlinkSize symlinkState srcW target60 =
        Except.ok { symlinkState with numInodes := 21, totalSize := 10256 }) ∧
      (CalcSymlinkSize symlinkState srcW target61 =
        Except.ok { symlinkState with numInodes := 21, totalSize := 14352 }) :=
  ⟨by rw [calcSymlinkSize_delta symlinkState srcW target60 (by decide)]; rfl,
    by rw [calcSymlinkSize_delta symlinkState srcW target61 (by decide)]; rfl⟩

/-- Every single `add*` dispatch leaves both running totals no smaller (and
always succeeds). -/
theorem applyEntry_mono (e e' : Ext4Fs) (op : Entry)
    (h : applyEntry e op = Except.ok e') :
    e.totalSize ≤ e'.totalSize ∧ e.numInodes ≤ e'.numInodes := by
  cases op <;>
    simp only [applyEntry, CalcRegFileSize, CalcDirSize, CalcSymlinkSize,
      CalcHardlinkSize, CalcCharDeviceSize, CalcBlockDeviceSize,
      CalcFIFOPipeSize, CalcSocketSize, CalcAddExAttrSize, addInode,
      Except.ok.injEq] at h
  case symlink s t =>
    split at h <;> (subst h; constructor <;> simp <;> omega)
  all_goals subst h
  all_goals constructor <;> simp <;> omega

/-- A whole entry sequence leaves both running totals no smaller. -/
theorem applyEntries_mono (ops : List Entry) : ∀ e e' : Ext4Fs,
    applyEntries e ops = Except.ok e' →
    e.totalSize ≤ e'.totalSize ∧ e.numInodes ≤ e'.numInodes := by
  induction ops with
  | nil =>
    intro e e' h
    have h' : Except.ok e = Except.ok e' := h
    cases Except.ok.inj h'
    exact ⟨le_refl _, le_refl _⟩
  | cons op rest ih =>
    intro e e' h
    have hcons : applyEntries e (op :: rest)
        = (applyEntry e op >>= fun b => applyEntries b rest) := rfl
    cases happly : applyEntry e op with
    | error msg =>
      rw [hcons, happly] at h
      exact Except.noConfusion (show Except.error msg = Except.ok e' from h)
    | ok e1 =>
      rw [hcons, happly] at h
      have h' : applyEntries e1 rest = Except.ok e' := h
      have step := applyEntry_mono e e1 op happly
      have tail := ih e1 e' h'
      exact ⟨le_trans step.1 tail.1, le_trans step.2 tail.2⟩

/-- C9: along any run of the size model — any start state, any sequence of
`add*` dispatches — the running total size and inode count are
non-decreasing across every single call: the state after the first `i + 1`
entries dominates the state after the first `i` entries. -/
theorem addEntries_monotone (e : Ext4Fs) (ops : List Entry) (i : Nat)
    (ei ei' : Ext4Fs) (hi : i < ops.length)
    (h1 : applyEntries e (ops.take i) = Except.ok ei)
    (h2 : applyEntries e (ops.take (i + 1)) = Except.ok ei') :
    ei.totalSize ≤ ei'.totalSize ∧ ei.numInodes ≤ ei'.numInodes := by
  have ht : ops.take (i + 1) = ops.take i ++ [ops[i]] := by
    rw [List.take_succ, List.getElem?_eq_getElem hi]
    rfl
  unfold applyEntries at h1 h2
  rw [ht, List.foldlM_append, h1] at h2
  have h2' : applyEntries ei [ops[i]] = Except.ok ei' := h2
  exact applyEntries_mono [ops[i]] ei ei' h2'

/-- C9 witness: one concrete step (a hardlink) from the post-`begin` state,
with the running totals before and after the call. -/
theorem addEntries_monotone_witness :
    seqState.totalSize ≤
        ({ BlockSize := 4096, InodeSize := 256, totalSize := 8960,
           numInodes := 11 } : Ext4Fs).totalSize ∧
      seqState.numInodes ≤
        ({ BlockSize := 4096, InodeSize := 256, totalSize := 8960,
           numInodes := 11 } : Ext4Fs).numInodes :=
  addEntries_monotone seqState opsW 0 seqState
    { BlockSize := 4096, InodeSize := 256, totalSize := 8960, numInodes := 11 }
    (by decide) rfl rfl

/-- C10: the state produced by every `Calc*` operation is independent of the
name and path strings, the device major and minor numbers, and the
extended-attribute key, value and flags: two calls of the same operation
from the same state agree whenever the file size (regular files) and the
target byte length (symlinks) agree. -/
theorem calcSizes_ignore_irrelevant_args
    (e : Ext4Fs) (n1 n2 : String) (sz : Nat) (d1 d2 : String)
    (s1 s2 t1 t2 : String) (hs1 hs2 hd1 hd2 : String)
    (c1 c2 : String) (cmaj1 cmin1 cmaj2 cmin2 : Nat)
    (b1 b2 : String) (bmaj1 bmin1 bmaj2 bmin2 : Nat)
    (p1 p2 k1 k2 : String)
    (x1 x2 a1 a2 : String) (dat1 dat2 : List Nat) (fl1 fl2 : Int)
    (hlen : t1.utf8ByteSize = t2.utf8ByteSize) :
    CalcRegFileSize e n1 sz = CalcRegFileSize e n2 sz ∧
    CalcDirSize e d1 = CalcDirSize e d2 ∧
    CalcSymlinkSize e s1 t1 = CalcSymlinkSize e s2 t2 ∧
    CalcHardlinkSize e hs1 hd1 = CalcHardlinkSize e hs2 hd2 ∧
    CalcCharDeviceSize e c1 cmaj1 cmin1 = CalcCharDeviceSize e c2 cmaj2 cmin2 ∧
    CalcBlockDeviceSize e b1 bmaj1 bmin1 = CalcBlockDeviceSize e b2 bmaj2 bmin2 ∧
    CalcFIFOPipeSize e p1 = CalcFIFOPipeSize e p2 ∧
    CalcSocketSize e k1 = CalcSocketSize e k2 ∧
    CalcAddExAttrSize e x1 a1 dat1 fl1 = CalcAddExAttrSize e x2 a2 dat2 fl2 := by
  refine ⟨rfl, rfl, ?_, rfl, rfl, rfl, rfl, rfl, rfl⟩
  simp [CalcSymlinkSize, hlen]

/-- C10 witness: two equal-length but different argument sets produce the
same states for all nine operations. -/
theorem calcSizes_ignore_irrelevant_args_witness :
    CalcRegFileSize ignoreArgsState strA 10000 =
        CalcRegFileSize ignoreArgsState strB 10000 ∧
      CalcDirSize ignoreArgsState strA = CalcDirSize ignoreArgsState strB ∧
      CalcSymlinkSize ignoreArgsState strA strA =
        CalcSymlinkSize ignoreArgsState strB strB ∧
      CalcHardlinkSize ignoreArgsState strA strA =
        CalcHardlinkSize ignoreArgsState strB strB ∧
      CalcCharDeviceSize ignoreArgsState strA 1 2 =
        CalcCharDeviceSize ignoreArgsState strB 3 4 ∧
      CalcBlockDeviceSize ignoreArgsState strA 5 6 =
        CalcBlockDeviceSize ignoreArgsState strB 7 8 ∧
      CalcFIFOPipeSize ignoreArgsState strA = CalcFIFOPipeSize ignoreArgsState strB ∧
      CalcSocketSize ignoreArgsState strA = CalcSocketSize ignoreArgsState strB ∧
      CalcAddExAttrSize ignoreArgsState strA strA [1, 2] 3 =
        CalcAddExAttrSize ignoreArgsState strB strB [4] 5 :=
  calcSizes_ignore_irrelevant_args ignoreArgsState strA strB 10000 strA strB
    strA strB strA strB strA strB strA strB strA strB 1 2 3 4 strA strB 5 6 7 8
    strA strB strA strB strA strB strA strB [1, 2] [4] 3 5 rfl
